import Mathlib

/-!
Shallow embedding of `src/dataset.py` (the JEPA dataset module): the
`HiddenManifold` generator with its dict-based configuration, the
save/load persistence helper over a modelled filesystem, and the
pixel-rescaling pipelines of the standard dataset loaders.

Python dicts are modelled as ordered association lists with Python's
insert-or-update / delete semantics.  Randomness (`torch.randn`,
`torch.bernoulli`) is passed in explicitly as outcome streams; the
scalar `torch.sqrt(D)` is passed as an explicit rational parameter
(rationals have no square root function); the transcendental `tanh`
is likewise passed as a function parameter.  Exceptions with partial
side effects are modelled by returning the state reached at the point
of the raise together with an optional error.
-/

namespace Jepa

/-- A JSON-representable Python value as used in the config dicts of
`dataset.py`: strings, (non-negative) integers and floats (as `ℚ`). -/
inductive Value where
  | str (s : String)
  | nat (n : Nat)
  | rat (q : ℚ)
deriving DecidableEq

/-- A Python dict with string keys, as an ordered association list. -/
abbrev Dict := List (String × Value)

/-- Python `m[k]`: first binding of `k`, if any. -/
def assocGet {β : Type} : List (String × β) → String → Option β
  | [], _ => none
  | kv :: rest, k => if kv.1 = k then some kv.2 else assocGet rest k

/-- Python `k in m`. -/
def assocContains {β : Type} (m : List (String × β)) (k : String) : Bool :=
  (assocGet m k).isSome

/-- Python `m[k] = v`: update the binding in place if present, else append. -/
def assocSet {β : Type} : List (String × β) → String → β → List (String × β)
  | [], k, v => [(k, v)]
  | kv :: rest, k, v => if kv.1 = k then (k, v) :: rest else kv :: assocSet rest k v

/-- Removal of all bindings of `k` (on the unique-key lists produced by
Python dicts this is exactly Python `del m[k]` after the membership check). -/
def assocErase {β : Type} : List (String × β) → String → List (String × β)
  | [], _ => []
  | kv :: rest, k => if kv.1 = k then assocErase rest k else kv :: assocErase rest k

/-- Errors raised by the embedded code (Python exception classes). -/
inductive Err where
  | notImplemented
  | keyError (k : String)
  | typeError
  | valueError (msg : String)
  | fileExists
  | fileNotFound
deriving DecidableEq

instance {ε α : Type} [DecidableEq ε] [DecidableEq α] : DecidableEq (Except ε α)
  | .ok a, .ok b =>
    if h : a = b then .isTrue (by rw [h]) else .isFalse (fun hab => h (Except.ok.inj hab))
  | .error e, .error f =>
    if h : e = f then .isTrue (by rw [h]) else .isFalse (fun hef => h (Except.error.inj hef))
  | .ok _, .error _ => .isFalse (fun h => Except.noConfusion h)
  | .error _, .ok _ => .isFalse (fun h => Except.noConfusion h)

/-- The `HiddenManifold` instance state: the directory configured at
construction and the config retained from the last generation
(`self.config`, `None` until the first `generate_dataset`). -/
structure HiddenManifold where
  save_dir : String
  config : Option Dict
deriving DecidableEq

/-- `HiddenManifold.__init__(save_dir)`. -/
def HiddenManifold.init (save_dir : String) : HiddenManifold :=
  { save_dir := save_dir, config := none }

/-- `HiddenManifold.get_default_config()`.  The compute target depends on
the environment (`torch.cuda.is_available()`), passed as `cudaAvailable`. -/
def get_default_config (cudaAvailable : Bool) : Dict :=
  [("feature_distribution", Value.str "gaussian"),
   ("nonlinearity", Value.str "tanh"),
   ("D", Value.nat 64),
   ("N", Value.nat 1024),
   ("P", Value.nat 8192),
   ("p", Value.rat (mkRat 1 2)),
   ("noise", Value.rat 0),
   ("device", Value.str (if cudaAvailable then "cuda" else "cpu"))]

/-- The override loop of `HiddenManifold.build_config`: for each kwarg,
reject keys absent from the current config, else update in place. -/
def build_config_loop : Dict → List (String × Value) → Except Err Dict
  | config, [] => .ok config
  | config, (k, v) :: rest =>
    if assocContains config k then build_config_loop (assocSet config k v) rest
    else .error (Err.valueError ("Unknown parameter " ++ k))

/-- `HiddenManifold.build_config(**kwargs)`: start from the default
config and merge the overrides, rejecting unknown keys. -/
def build_config (cudaAvailable : Bool) (kwargs : List (String × Value)) : Except Err Dict :=
  build_config_loop (get_default_config cudaAvailable) kwargs

/-- `HiddenManifold.get_config()`: the dict object stored in `self.config`. -/
def get_config (hm : HiddenManifold) : Option Dict :=
  hm.config

/-- A tensor of rank 2 with rational entries (rows of entries). -/
abbrev Mat := List (List ℚ)

/-- A `rows × cols` matrix with entry `f i j` at position `(i, j)`
(`torch.randn((rows, cols))` etc. with the outcome stream `f`). -/
def mkMat (rows cols : Nat) (f : Nat → Nat → ℚ) : Mat :=
  (List.range rows).map (fun i => (List.range cols).map (fun j => f i j))

/-- Dot product of two rows. -/
def dotQ : List ℚ → List ℚ → ℚ
  | [], _ => 0
  | _, [] => 0
  | a :: as, b :: bs => a * b + dotQ as bs

/-- `torch.matmul` on rank-2 tensors. -/
def matmul (A B : Mat) : Mat :=
  A.map (fun row =>
    (List.range (B.headD []).length).map (fun j =>
      dotQ row (B.map (fun brow => brow.getD j 0))))

/-- Elementwise application of a function (a `torch` elementwise op). -/
def matMap (f : ℚ → ℚ) (m : Mat) : Mat :=
  m.map (List.map f)

/-- Division of every entry by a scalar. -/
def matDiv (m : Mat) (c : ℚ) : Mat :=
  matMap (fun x => x / c) m

/-- Multiplication of every entry by a scalar. -/
def matScale (c : ℚ) (m : Mat) : Mat :=
  matMap (fun x => c * x) m

/-- Elementwise sum of two same-shaped matrices (`data += ...`). -/
def matAdd (a b : Mat) : Mat :=
  List.zipWith (fun ra rb => List.zipWith (fun x y => x + y) ra rb) a b

/-- `torch.nn.functional.relu` on a rational entry. -/
def reluQ (x : ℚ) : ℚ :=
  max x 0

/-- Read `config[k]`, raising `KeyError` when absent. -/
def getKey (cfg : Dict) (k : String) : Except Err Value :=
  match assocGet cfg k with
  | none => .error (Err.keyError k)
  | some v => .ok v

/-- Read `config[k]` as a Python int (`TypeError` on a non-int value). -/
def getNat (cfg : Dict) (k : String) : Except Err Nat :=
  match assocGet cfg k with
  | none => .error (Err.keyError k)
  | some (Value.nat n) => .ok n
  | some _ => .error Err.typeError

/-- Read `config[k]` as a Python number (int or float). -/
def getRat (cfg : Dict) (k : String) : Except Err ℚ :=
  match assocGet cfg k with
  | none => .error (Err.keyError k)
  | some (Value.nat n) => .ok (n : ℚ)
  | some (Value.rat q) => .ok q
  | some _ => .error Err.typeError

/-- The tail of `generate_dataset` after the nonlinearity has been
resolved to `sigma`: read `D, N, P, p, noise, device` from the config,
sample the feature matrix (`rF`), the Bernoulli latent patterns (`rL`,
outcomes in `{0, 1}`) and the noise matrix (`rZ`), and compute
`sigma(latent_patterns @ feature_matrix / sqrt(D)) + noise * randn`. -/
def generateData (cfg : Dict) (sqrtD : ℚ) (sigma : ℚ → ℚ) (rF : Nat → Nat → ℚ)
    (rL : Nat → Nat → Bool) (rZ : Nat → Nat → ℚ) : Except Err Mat :=
  match getNat cfg "D" with
  | .error e => .error e
  | .ok D =>
  match getNat cfg "N" with
  | .error e => .error e
  | .ok N =>
  match getNat cfg "P" with
  | .error e => .error e
  | .ok P =>
  match getRat cfg "p" with
  | .error e => .error e
  | .ok _p =>
  match getRat cfg "noise" with
  | .error e => .error e
  | .ok noise =>
  match getKey cfg "device" with
  | .error e => .error e
  | .ok _device =>
    let feature_matrix := mkMat D N rF
    let latent_patterns := mkMat P D (fun i j => if rL i j then (1 : ℚ) else 0)
    let data := matMap sigma (matDiv (matmul latent_patterns feature_matrix) sqrtD)
    .ok (matAdd data (matScale noise (mkMat P N rZ)))

/-- The body of `generate_dataset` after `self.config` has been set:
resolve the feature distribution (only "gaussian") and the nonlinearity
(only "relu" and "tanh"), then generate the data. -/
def generateCore (cfg : Dict) (sqrtD : ℚ) (tanhQ : ℚ → ℚ) (rF : Nat → Nat → ℚ)
    (rL : Nat → Nat → Bool) (rZ : Nat → Nat → ℚ) : Except Err Mat :=
  match getKey cfg "feature_distribution" with
  | .error e => .error e
  | .ok fd =>
    if fd = Value.str "gaussian" then
      match getKey cfg "nonlinearity" with
      | .error e => .error e
      | .ok nl =>
        if nl = Value.str "relu" then generateData cfg sqrtD reluQ rF rL rZ
        else if nl = Value.str "tanh" then generateData cfg sqrtD tanhQ rF rL rZ
        else .error Err.notImplemented
    else .error Err.notImplemented

/-- `HiddenManifold.generate_dataset(config)`: fall back to the default
config when `config` is `None`, store the config on the instance
(before any validation), then run the generation body.  Returns the
updated instance together with the result or the raised error. -/
def generate_dataset (hm : HiddenManifold) (config : Option Dict) (cudaAvailable : Bool)
    (sqrtD : ℚ) (tanhQ : ℚ → ℚ) (rF : Nat → Nat → ℚ) (rL : Nat → Nat → Bool)
    (rZ : Nat → Nat → ℚ) : HiddenManifold × Except Err Mat :=
  let cfg := config.getD (get_default_config cudaAvailable)
  ({ hm with config := some cfg }, generateCore cfg sqrtD tanhQ rF rL rZ)

/-- `HiddenManifold.get_dirname(id)`. -/
def get_dirname (id : String) : String :=
  "rf_" ++ id

/-- `os.path.join` for the relative path components used here. -/
def joinPath (a b : String) : String :=
  if a = "" then b else a ++ "/" ++ b

/-- A file on the modelled filesystem: a serialized tensor
(`torch.save`) or a serialized metadata dict (`json.dump`; JSON
round-trips these dicts unchanged). -/
inductive FileEntry (α : Type) where
  | tensor (t : α)
  | meta (m : Dict)
deriving DecidableEq

/-- The filesystem under the save root: the set of existing directories
and the files by path. -/
structure Fs (α : Type) where
  dirs : List String
  files : List (String × FileEntry α)
deriving DecidableEq

/-- Read the file at a path, if present. -/
def getFile {α : Type} (fs : Fs α) (path : String) : Option (FileEntry α) :=
  assocGet fs.files path

/-- Write (create or overwrite) the file at a path. -/
def setFile {α : Type} (fs : Fs α) (path : String) (e : FileEntry α) : Fs α :=
  { fs with files := assocSet fs.files path e }

/-- The metadata mutations of `save_dataset` before the `del`
(lines `metadata["id"] = id` through `metadata["dataset_dir"] = dataset_dir`):
inject the id, the dataset file path and the dataset directory path into
the dict aliased by `self.config`. -/
def saveMetaPre (cfg : Dict) (id filepath dataset_dir : String) : Dict :=
  assocSet (assocSet (assocSet cfg "id" (Value.str id))
    "dataset_path" (Value.str filepath)) "dataset_dir" (Value.str dataset_dir)

/-- `HiddenManifold.save_dataset(dataset, id, exist_ok, log_to_wandb)`.
`os.makedirs` fails on an existing directory unless `exist_ok`; then the
tensor is written, the metadata dict is built by mutating the dict
aliased by `self.config` (the mutations persist on the instance even
when the later `del` raises), `device` is deleted (`KeyError` when
absent), and the metadata file is written.  The wandb logging call is
an external fire-and-forget collaborator with no modelled effect. -/
def save_dataset {α : Type} (hm : HiddenManifold) (fs : Fs α) (dataset : α) (id : String)
    (exist_ok : Bool) (_log_to_wandb : Bool) : HiddenManifold × Fs α × Option Err :=
  let dataset_dir := joinPath hm.save_dir (get_dirname id)
  if dataset_dir ∈ fs.dirs ∧ exist_ok = false then
    (hm, fs, some Err.fileExists)
  else
    let fs1 : Fs α := { fs with dirs := if dataset_dir ∈ fs.dirs then fs.dirs else dataset_dir :: fs.dirs }
    let filepath := joinPath dataset_dir "dataset.pt"
    let fs2 := setFile fs1 filepath (FileEntry.tensor dataset)
    match get_config hm with
    | none => (hm, fs2, some Err.typeError)
    | some cfg =>
      let cfg3 := saveMetaPre cfg id filepath dataset_dir
      if assocContains cfg3 "device" then
        let cfg4 := assocErase cfg3 "device"
        let fs3 := setFile fs2 (joinPath dataset_dir "metadata.json") (FileEntry.meta cfg4)
        ({ hm with config := some cfg4 }, fs3, none)
      else
        ({ hm with config := some cfg3 }, fs2, some (Err.keyError "device"))

/-- `HiddenManifold.load_dataset(id)`: read the metadata file in the
directory derived from `id`, then read the tensor at the path recorded
in the metadata. -/
def load_dataset {α : Type} (hm : HiddenManifold) (fs : Fs α) (id : String) :
    Except Err (α × Dict) :=
  let dataset_dir := joinPath hm.save_dir (get_dirname id)
  let metadata_path := joinPath dataset_dir "metadata.json"
  match getFile fs metadata_path with
  | none => .error Err.fileNotFound
  | some (FileEntry.tensor _) => .error Err.typeError
  | some (FileEntry.meta metadata) =>
    match assocGet metadata "dataset_path" with
    | none => .error (Err.keyError "dataset_path")
    | some (Value.str dataset_path) =>
      (match getFile fs dataset_path with
       | none => .error Err.fileNotFound
       | some (FileEntry.meta _) => .error Err.typeError
       | some (FileEntry.tensor dataset) => .ok (dataset, metadata))
    | some _ => .error Err.typeError

/-- `torchvision.transforms.ToTensor` on one pixel: the external
collaborator converts a uint8 intensity in `[0, 255]` to a float in
`[0, 1]` by dividing by 255 (its documented behaviour). -/
def toTensorPixel (pixel : Nat) : ℚ :=
  (pixel : ℚ) / 255

/-- The rescaling lambda `2 * (x / 255) - 1` shared by
`load_mnist_as_dataset`, `load_mnist` and `load_cifar`. -/
def rescalePixel (x : ℚ) : ℚ :=
  2 * (x / 255) - 1

/-- Value of one pixel after `load_mnist_as_dataset`'s transform
pipeline: `ToTensor` (already scaling to `[0, 1]`) followed by the
rescaling lambda. -/
def mnist_as_dataset_pixel (pixel : Nat) : ℚ :=
  rescalePixel (toTensorPixel pixel)

/-- Value of one pixel after `load_mnist` / `load_cifar`, which apply
the rescaling lambda to the raw uint8 data in `[0, 255]`. -/
def raw_loader_pixel (pixel : Nat) : ℚ :=
  rescalePixel ((pixel : ℚ))

/-! ### Association-list (Python dict) lemmas -/

theorem assocGet_set_self {β : Type} (m : List (String × β)) (k : String) (v : β) :
    assocGet (assocSet m k v) k = some v := by
  induction m with
  | nil => simp [assocSet, assocGet]
  | cons kv rest ih =>
    by_cases h : kv.1 = k
    · simp [assocSet, h, assocGet]
    · simp [assocSet, h, assocGet, ih]

theorem assocGet_set_ne {β : Type} (m : List (String × β)) (k : String) (v : β)
    {k' : String} (h : k' ≠ k) :
    assocGet (assocSet m k v) k' = assocGet m k' := by
  induction m with
  | nil => simp [assocSet, assocGet, Ne.symm h]
  | cons kv rest ih =>
    by_cases hkv : kv.1 = k
    · simp [assocSet, hkv, assocGet, Ne.symm h]
    · simp [assocSet, hkv, assocGet, ih]

theorem assocGet_erase_self {β : Type} (m : List (String × β)) (k : String) :
    assocGet (assocErase m k) k = none := by
  induction m with
  | nil => simp [assocErase, assocGet]
  | cons kv rest ih =>
    by_cases h : kv.1 = k
    · simp [assocErase, h, ih]
    · simp [assocErase, h, assocGet, ih]

theorem assocGet_erase_ne {β : Type} (m : List (String × β)) (k : String)
    {k' : String} (h : k' ≠ k) :
    assocGet (assocErase m k) k' = assocGet m k' := by
  induction m with
  | nil => simp [assocErase]
  | cons kv rest ih =>
    by_cases hkv : kv.1 = k
    · simp [assocErase, hkv, assocGet, Ne.symm h, ih]
    · simp [assocErase, hkv, assocGet, ih]

theorem assocContains_set_iff {β : Type} (m : List (String × β)) (k : String) (v : β)
    (k' : String) :
    assocContains (assocSet m k v) k' = true ↔ (k' = k ∨ assocContains m k' = true) := by
  by_cases h : k' = k
  · subst h
    simp [assocContains, assocGet_set_self]
  · simp [assocContains, assocGet_set_ne m k v h, h]

/-! ### Path lemmas -/

theorem joinPath_ne_of_length_ne (a : String) {b c : String}
    (h : b.length ≠ c.length) : joinPath a b ≠ joinPath a c := by
  intro hbc
  apply h
  by_cases ha : a = "" <;> simp [joinPath, ha] at hbc
  · rw [hbc]
  · have hlen := congrArg String.length hbc
    simpa [String.length_append] using hlen

/-! ### Matrix shape lemmas -/

theorem mem_zipWith {α β γ : Type} {f : α → β → γ} :
    ∀ {as : List α} {bs : List β} {x : γ}, x ∈ List.zipWith f as bs →
      ∃ a b, a ∈ as ∧ b ∈ bs ∧ x = f a b := by
  intro as
  induction as with
  | nil => intro bs x hx; simp at hx
  | cons a as ih =>
    intro bs x hx
    cases bs with
    | nil => simp at hx
    | cons b bs =>
      rw [List.zipWith_cons_cons, List.mem_cons] at hx
      rcases hx with h | h
      · exact ⟨a, b, by simp, by simp, h⟩
      · obtain ⟨a1, b1, ha, hb, hx⟩ := ih h
        exact ⟨a1, b1, by simp [ha], by simp [hb], hx⟩

theorem mkMat_length (r c : Nat) (f : Nat → Nat → ℚ) : (mkMat r c f).length = r := by
  simp [mkMat]

theorem mkMat_row_length {r c : Nat} {f : Nat → Nat → ℚ} {row : List ℚ}
    (h : row ∈ mkMat r c f) : row.length = c := by
  simp [mkMat] at h
  obtain ⟨i, _, rfl⟩ := h
  simp

theorem mkMat_headD_length {r : Nat} (c : Nat) (f : Nat → Nat → ℚ) (h : 0 < r) :
    ((mkMat r c f).headD []).length = c := by
  cases r with
  | zero => omega
  | succ n => simp [mkMat, List.range_succ_eq_map]

theorem matmul_length (A B : Mat) : (matmul A B).length = A.length := by
  simp [matmul]

theorem matmul_row_length {A B : Mat} {row : List ℚ} (h : row ∈ matmul A B) :
    row.length = (B.headD []).length := by
  simp [matmul] at h
  obtain ⟨r, _, rfl⟩ := h
  simp

theorem matMap_length (f : ℚ → ℚ) (m : Mat) : (matMap f m).length = m.length := by
  simp [matMap]

theorem mem_matMap {f : ℚ → ℚ} {m : Mat} {row : List ℚ} (h : row ∈ matMap f m) :
    ∃ r ∈ m, row = List.map f r := by
  simp [matMap] at h
  obtain ⟨r, hr, rfl⟩ := h
  exact ⟨r, hr, rfl⟩

theorem matAdd_length (a b : Mat) : (matAdd a b).length = min a.length b.length := by
  simp [matAdd]

/-! ### Error-shape lemmas for the generation body -/

theorem getNat_error_shape {cfg : Dict} {k : String} {e : Err}
    (h : getNat cfg k = .error e) : e = Err.keyError k ∨ e = Err.typeError := by
  unfold getNat at h
  split at h <;> simp_all

theorem getRat_error_shape {cfg : Dict} {k : String} {e : Err}
    (h : getRat cfg k = .error e) : e = Err.keyError k ∨ e = Err.typeError := by
  unfold getRat at h
  split at h <;> simp_all

theorem getKey_error_shape {cfg : Dict} {k : String} {e : Err}
    (h : getKey cfg k = .error e) : e = Err.keyError k := by
  unfold getKey at h
  split at h <;> simp_all

theorem generateData_error_shape {cfg : Dict} {sqrtD : ℚ} {sigma : ℚ → ℚ}
    {rF : Nat → Nat → ℚ} {rL : Nat → Nat → Bool} {rZ : Nat → Nat → ℚ} {e : Err}
    (h : generateData cfg sqrtD sigma rF rL rZ = .error e) :
    (∃ k, e = Err.keyError k) ∨ e = Err.typeError := by
  unfold generateData at h
  repeat' split at h
  all_goals simp_all
  · exact (getNat_error_shape (by assumption)).imp (fun hk => ⟨"D", hk⟩) id
  · exact (getNat_error_shape (by assumption)).imp (fun hk => ⟨"N", hk⟩) id
  · exact (getNat_error_shape (by assumption)).imp (fun hk => ⟨"P", hk⟩) id
  · exact (getRat_error_shape (by assumption)).imp (fun hk => ⟨"p", hk⟩) id
  · exact (getRat_error_shape (by assumption)).imp (fun hk => ⟨"noise", hk⟩) id
  · exact Or.inl ⟨"device", getKey_error_shape (by assumption)⟩

theorem generateData_ne_notImplemented (cfg : Dict) (sqrtD : ℚ) (sigma : ℚ → ℚ)
    (rF : Nat → Nat → ℚ) (rL : Nat → Nat → Bool) (rZ : Nat → Nat → ℚ) :
    generateData cfg sqrtD sigma rF rL rZ ≠ .error Err.notImplemented := by
  intro h
  rcases generateData_error_shape h with ⟨k, hk⟩ | hk <;> simp_all

theorem assocContains_set_self {β : Type} (m : List (String × β)) (k : String) (v : β) :
    assocContains (assocSet m k v) k = true := by
  simp [assocContains, assocGet_set_self]

theorem assocContains_set_ne {β : Type} (m : List (String × β)) (k : String) (v : β)
    {k' : String} (h : k' ≠ k) :
    assocContains (assocSet m k v) k' = assocContains m k' := by
  simp [assocContains, assocGet_set_ne m k v h]

/-! ### The override loop of build_config -/

theorem build_config_loop_ok (kwargs : List (String × Value)) :
    ∀ c : Dict, (∀ kv ∈ kwargs, assocContains c kv.1 = true) →
    build_config_loop c kwargs = .ok (kwargs.foldl (fun a kv => assocSet a kv.1 kv.2) c) := by
  induction kwargs with
  | nil => intro c _; simp [build_config_loop]
  | cons kv rest ih =>
    obtain ⟨k, v⟩ := kv
    intro c hc
    have hk : assocContains c k = true := hc (k, v) (by simp)
    simp only [build_config_loop, hk, if_true, List.foldl_cons]
    exact ih (assocSet c k v) (fun kv2 h2 =>
      (assocContains_set_iff c k v kv2.1).mpr (Or.inr (hc kv2 (by simp [h2]))))

theorem build_config_loop_err (kwargs : List (String × Value)) :
    ∀ c d0 : Dict, (∀ k2, assocContains c k2 = assocContains d0 k2) →
    ∀ k0 v0, (k0, v0) ∈ kwargs → assocContains d0 k0 = false →
    ∃ k v, (k, v) ∈ kwargs ∧ assocContains d0 k = false ∧
      build_config_loop c kwargs = .error (Err.valueError ("Unknown parameter " ++ k)) := by
  induction kwargs with
  | nil => intro c d0 _ k0 v0 h _; simp at h
  | cons kv rest ih =>
    obtain ⟨k, v⟩ := kv
    intro c d0 hcd k0 v0 hmem hk0
    by_cases hk : assocContains c k = true
    · have hinv : ∀ k2, assocContains (assocSet c k v) k2 = assocContains d0 k2 := by
        intro k2
        by_cases h2 : k2 = k
        · subst h2
          rw [assocContains_set_self, ← hcd, hk]
        · rw [assocContains_set_ne c k v h2, hcd]
      have hrest : (k0, v0) ∈ rest := by
        rcases List.mem_cons.mp hmem with h | h
        · exfalso
          have hkk0 : k0 = k := congrArg Prod.fst h
          rw [hkk0, ← hcd k, hk] at hk0
          exact Bool.true_eq_false.mp hk0
        · exact h
      obtain ⟨k1, v1, hmem1, hbad1, heq1⟩ := ih (assocSet c k v) d0 hinv k0 v0 hrest hk0
      refine ⟨k1, v1, List.mem_cons.mpr (Or.inr hmem1), hbad1, ?_⟩
      simpa [build_config_loop, hk] using heq1
    · refine ⟨k, v, by simp, ?_, ?_⟩
      · rw [← hcd k]
        exact Bool.not_eq_true _ ▸ (Bool.eq_false_iff.mpr (fun h => hk h))
      · simp [build_config_loop, hk]

/-- C4: build_config merges the overrides onto the default configuration
when every override key belongs to the default key set, and fails with
an "unknown parameter" error naming an offending key as soon as any
override key is absent from that set. -/
theorem c4_build_config (cuda : Bool) (kwargs : List (String × Value)) :
    ((∀ kv ∈ kwargs, assocContains (get_default_config cuda) kv.1 = true) →
      build_config cuda kwargs =
        .ok (kwargs.foldl (fun a kv => assocSet a kv.1 kv.2) (get_default_config cuda))) ∧
    (∀ k0 v0, (k0, v0) ∈ kwargs → assocContains (get_default_config cuda) k0 = false →
      ∃ k v, (k, v) ∈ kwargs ∧ assocContains (get_default_config cuda) k = false ∧
        build_config cuda kwargs = .error (Err.valueError ("Unknown parameter " ++ k))) := by
  constructor
  · intro h
    exact build_config_loop_ok kwargs (get_default_config cuda) h
  · intro k0 v0 hmem hbad
    exact build_config_loop_err kwargs (get_default_config cuda) (get_default_config cuda)
      (fun _ => rfl) k0 v0 hmem hbad

theorem c4_build_config_witness :
    ((∀ kv ∈ [(("noise", Value.rat (mkRat 1 10)) : String × Value)],
        assocContains (get_default_config false) kv.1 = true) ∧
      build_config false [("noise", Value.rat (mkRat 1 10))] =
        .ok ([(("noise", Value.rat (mkRat 1 10)) : String × Value)].foldl
          (fun a kv => assocSet a kv.1 kv.2) (get_default_config false))) ∧
    (∃ k v, (k, v) ∈ [(("foo", Value.nat 1) : String × Value)] ∧
      assocContains (get_default_config false) k = false ∧
      build_config false [("foo", Value.nat 1)] =
        .error (Err.valueError ("Unknown parameter " ++ k))) :=
  ⟨⟨by decide, (c4_build_config false [("noise", Value.rat (mkRat 1 10))]).1 (by decide)⟩,
   (c4_build_config false [("foo", Value.nat 1)]).2 "foo" (Value.nat 1) (by simp) (by decide)⟩

/-- C5: generate_dataset raises NotImplementedError whenever the config's
feature_distribution is not "gaussian" or its nonlinearity is neither
"relu" nor "tanh"; with a supported feature distribution and
nonlinearity that error is never raised. -/
theorem c5_unsupported_options (hm : HiddenManifold) (cfg : Dict) (cuda : Bool) (sqrtD : ℚ)
    (tanhQ : ℚ → ℚ) (rF : Nat → Nat → ℚ) (rL : Nat → Nat → Bool) (rZ : Nat → Nat → ℚ)
    (fd nl : Value)
    (hfd : assocGet cfg "feature_distribution" = some fd)
    (hnl : assocGet cfg "nonlinearity" = some nl) :
    ((fd ≠ Value.str "gaussian" ∨ (nl ≠ Value.str "relu" ∧ nl ≠ Value.str "tanh")) →
      (generate_dataset hm (some cfg) cuda sqrtD tanhQ rF rL rZ).2 =
        .error Err.notImplemented) ∧
    ((fd = Value.str "gaussian" ∧ (nl = Value.str "relu" ∨ nl = Value.str "tanh")) →
      (generate_dataset hm (some cfg) cuda sqrtD tanhQ rF rL rZ).2 ≠
        .error Err.notImplemented) := by
  have hcore : (generate_dataset hm (some cfg) cuda sqrtD tanhQ rF rL rZ).2
      = generateCore cfg sqrtD tanhQ rF rL rZ := rfl
  constructor
  · intro h
    rw [hcore]
    rcases h with hbad | ⟨h1, h2⟩
    · simp [generateCore, getKey, hfd, hbad]
    · by_cases hg : fd = Value.str "gaussian"
      · simp [generateCore, getKey, hfd, hnl, hg, h1, h2]
      · simp [generateCore, getKey, hfd, hg]
  · rintro ⟨h1, h2⟩
    rw [hcore]
    subst h1
    simp only [generateCore, getKey, hfd, hnl, if_true]
    rcases h2 with rfl | rfl
    · simpa using generateData_ne_notImplemented cfg sqrtD reluQ rF rL rZ
    · simpa using generateData_ne_notImplemented cfg sqrtD tanhQ rF rL rZ

theorem c5_unsupported_options_witness :
    (generate_dataset (HiddenManifold.init "")
        (some [("feature_distribution", Value.str "uniform"),
               ("nonlinearity", Value.str "relu")])
        false 1 (fun x => x) (fun _ _ => 0) (fun _ _ => false) (fun _ _ => 0)).2 =
      .error Err.notImplemented ∧
    (generate_dataset (HiddenManifold.init "")
        (some [("feature_distribution", Value.str "gaussian"),
               ("nonlinearity", Value.str "relu"),
               ("D", Value.nat 1), ("N", Value.nat 1), ("P", Value.nat 1),
               ("p", Value.rat (mkRat 1 2)), ("noise", Value.rat 0),
               ("device", Value.str "cpu")])
        false 1 (fun x => x) (fun _ _ => 0) (fun _ _ => false) (fun _ _ => 0)).2 ≠
      .error Err.notImplemented :=
  ⟨(c5_unsupported_options (HiddenManifold.init "") _ false 1 (fun x => x)
      (fun _ _ => 0) (fun _ _ => false) (fun _ _ => 0)
      (Value.str "uniform") (Value.str "relu") (by decide) (by decide)).1
      (Or.inl (by decide)),
   (c5_unsupported_options (HiddenManifold.init "") _ false 1 (fun x => x)
      (fun _ _ => 0) (fun _ _ => false) (fun _ _ => 0)
      (Value.str "gaussian") (Value.str "relu") (by decide) (by decide)).2
      ⟨rfl, Or.inl rfl⟩⟩

/-- C9: generate_dataset stores the passed config on the instance before
validating feature_distribution and nonlinearity, so after a call that
fails with NotImplementedError, get_config returns the offending config
(the previously stored config is lost). -/
theorem c9_config_stored_before_validation (hm : HiddenManifold) (cfg : Dict) (cuda : Bool)
    (sqrtD : ℚ) (tanhQ : ℚ → ℚ) (rF : Nat → Nat → ℚ) (rL : Nat → Nat → Bool)
    (rZ : Nat → Nat → ℚ)
    (_herr : (generate_dataset hm (some cfg) cuda sqrtD tanhQ rF rL rZ).2 =
      .error Err.notImplemented) :
    get_config (generate_dataset hm (some cfg) cuda sqrtD tanhQ rF rL rZ).1 = some cfg :=
  rfl

theorem c9_config_stored_before_validation_witness :
    (generate_dataset ⟨"", some [("D", Value.nat 2)]⟩
        (some [("feature_distribution", Value.str "laplace")])
        false 1 (fun x => x) (fun _ _ => 0) (fun _ _ => false) (fun _ _ => 0)).2 =
      .error Err.notImplemented ∧
    get_config (generate_dataset ⟨"", some [("D", Value.nat 2)]⟩
        (some [("feature_distribution", Value.str "laplace")])
        false 1 (fun x => x) (fun _ _ => 0) (fun _ _ => false) (fun _ _ => 0)).1 =
      some [("feature_distribution", Value.str "laplace")] :=
  ⟨by decide,
   c9_config_stored_before_validation ⟨"", some [("D", Value.nat 2)]⟩
     [("feature_distribution", Value.str "laplace")] false 1 (fun x => x)
     (fun _ _ => 0) (fun _ _ => false) (fun _ _ => 0) (by decide)⟩

/-! ### Generation: success shape -/

theorem generateData_eq {cfg : Dict} {D N P : Nat} {p noise : ℚ} {dv : Value}
    (sqrtD : ℚ) (sigma : ℚ → ℚ) (rF : Nat → Nat → ℚ) (rL : Nat → Nat → Bool)
    (rZ : Nat → Nat → ℚ)
    (hD : getNat cfg "D" = .ok D) (hN : getNat cfg "N" = .ok N)
    (hP : getNat cfg "P" = .ok P) (hp : getRat cfg "p" = .ok p)
    (hnoise : getRat cfg "noise" = .ok noise) (hdev : getKey cfg "device" = .ok dv) :
    generateData cfg sqrtD sigma rF rL rZ =
      .ok (matAdd (matMap sigma (matDiv (matmul
            (mkMat P D (fun i j => if rL i j then (1 : ℚ) else 0)) (mkMat D N rF)) sqrtD))
          (matScale noise (mkMat P N rZ))) := by
  simp [generateData, hD, hN, hP, hp, hnoise, hdev]

theorem generated_data_shape {D : Nat} (N P : Nat) (hD : 0 < D) (sqrtD : ℚ)
    (sigma : ℚ → ℚ) (noise : ℚ) (rF : Nat → Nat → ℚ) (rL : Nat → Nat → Bool)
    (rZ : Nat → Nat → ℚ) :
    (matAdd (matMap sigma (matDiv (matmul
        (mkMat P D (fun i j => if rL i j then (1 : ℚ) else 0)) (mkMat D N rF)) sqrtD))
      (matScale noise (mkMat P N rZ))).length = P ∧
    ∀ row ∈ matAdd (matMap sigma (matDiv (matmul
        (mkMat P D (fun i j => if rL i j then (1 : ℚ) else 0)) (mkMat D N rF)) sqrtD))
      (matScale noise (mkMat P N rZ)), row.length = N := by
  constructor
  · simp [matAdd_length, matMap_length, matDiv, matScale, matmul_length, mkMat_length]
  · intro row hrow
    unfold matAdd at hrow
    obtain ⟨ra, rb, hra, hrb, rfl⟩ := mem_zipWith hrow
    obtain ⟨ra1, hra1, rfl⟩ := mem_matMap hra
    unfold matDiv at hra1
    obtain ⟨ra2, hra2, rfl⟩ := mem_matMap hra1
    have hlenA : ra2.length = N := by
      rw [matmul_row_length hra2, mkMat_headD_length N rF hD]
    unfold matScale at hrb
    obtain ⟨rz, hrz, rfl⟩ := mem_matMap hrb
    have hlenZ : rz.length = N := mkMat_row_length hrz
    simp [hlenA, hlenZ]

theorem relu_plus_zero_noise_nonneg (M Z : Mat) :
    ∀ row ∈ matAdd (matMap reluQ M) (matScale 0 Z), ∀ x ∈ row, 0 ≤ x := by
  intro row hrow x hx
  unfold matAdd at hrow
  obtain ⟨ra, rb, hra, hrb, rfl⟩ := mem_zipWith hrow
  obtain ⟨u, v, hu, hv, rfl⟩ := mem_zipWith hx
  obtain ⟨r0, _, rfl⟩ := mem_matMap hra
  simp only [List.mem_map] at hu
  obtain ⟨y, _, rfl⟩ := hu
  unfold matScale at hrb
  obtain ⟨rz, _, rfl⟩ := mem_matMap hrb
  simp only [List.mem_map] at hv
  obtain ⟨z, _, rfl⟩ := hv
  simp [reluQ]

/-- The C7 scenario config: the result of applying the overrides
`D=4, N=8, P=16, p=0.5, noise=0.0, nonlinearity="relu"` to the default
config (on a cpu-only machine). -/
def c7Config : Dict :=
  [("feature_distribution", Value.str "gaussian"),
   ("nonlinearity", Value.str "relu"),
   ("D", Value.nat 4), ("N", Value.nat 8), ("P", Value.nat 16),
   ("p", Value.rat (mkRat 1 2)), ("noise", Value.rat 0),
   ("device", Value.str "cpu")]

/-- C7: for every valid config (all fields present and supported, D
positive), generate_dataset returns a tensor of shape P×N; and for the
scenario config {D:4, N:8, P:16, p:0.5, noise:0.0, nonlinearity:"relu"}
(gaussian features) the result has shape (16, 8) with every entry ≥ 0,
for every outcome of the random sampling. -/
theorem c7_shape_and_relu_nonneg :
    (∀ (hm : HiddenManifold) (cfg : Dict) (cuda : Bool) (sqrtD : ℚ) (tanhQ : ℚ → ℚ)
        (rF : Nat → Nat → ℚ) (rL : Nat → Nat → Bool) (rZ : Nat → Nat → ℚ)
        (D N P : Nat) (p noise : ℚ) (dv : Value),
      assocGet cfg "feature_distribution" = some (Value.str "gaussian") →
      (assocGet cfg "nonlinearity" = some (Value.str "relu") ∨
        assocGet cfg "nonlinearity" = some (Value.str "tanh")) →
      getNat cfg "D" = .ok D → 0 < D →
      getNat cfg "N" = .ok N →
      getNat cfg "P" = .ok P →
      getRat cfg "p" = .ok p →
      getRat cfg "noise" = .ok noise →
      getKey cfg "device" = .ok dv →
      ∃ data, (generate_dataset hm (some cfg) cuda sqrtD tanhQ rF rL rZ).2 = .ok data ∧
        data.length = P ∧ ∀ row ∈ data, row.length = N) ∧
    (build_config false
        [("D", Value.nat 4), ("N", Value.nat 8), ("P", Value.nat 16),
         ("p", Value.rat (mkRat 1 2)), ("noise", Value.rat 0),
         ("nonlinearity", Value.str "relu")] = .ok c7Config) ∧
    (∀ (hm : HiddenManifold) (cuda : Bool) (sqrtD : ℚ) (tanhQ : ℚ → ℚ)
        (rF : Nat → Nat → ℚ) (rL : Nat → Nat → Bool) (rZ : Nat → Nat → ℚ),
      ∃ data, (generate_dataset hm (some c7Config) cuda sqrtD tanhQ rF rL rZ).2 = .ok data ∧
        data.length = 16 ∧ (∀ row ∈ data, row.length = 8) ∧
        ∀ row ∈ data, ∀ x ∈ row, 0 ≤ x) := by
  refine ⟨?_, by decide, ?_⟩
  · intro hm cfg cuda sqrtD tanhQ rF rL rZ D N P p noise dv hfd hnl hD hDpos hN hP hp hnoise hdev
    have hcore : (generate_dataset hm (some cfg) cuda sqrtD tanhQ rF rL rZ).2
        = generateCore cfg sqrtD tanhQ rF rL rZ := rfl
    have hred : ∃ sigma, generateCore cfg sqrtD tanhQ rF rL rZ
        = generateData cfg sqrtD sigma rF rL rZ := by
      rcases hnl with hnl | hnl
      · exact ⟨reluQ, by simp [generateCore, getKey, hfd, hnl]⟩
      · exact ⟨tanhQ, by simp [generateCore, getKey, hfd, hnl]⟩
    obtain ⟨sigma, hsigma⟩ := hred
    rw [hcore, hsigma, generateData_eq sqrtD sigma rF rL rZ hD hN hP hp hnoise hdev]
    obtain ⟨hlen, hrows⟩ := generated_data_shape N P hDpos sqrtD sigma noise rF rL rZ
    exact ⟨_, rfl, hlen, hrows⟩
  · intro hm cuda sqrtD tanhQ rF rL rZ
    have hcore : (generate_dataset hm (some c7Config) cuda sqrtD tanhQ rF rL rZ).2
        = generateCore c7Config sqrtD tanhQ rF rL rZ := rfl
    have hsigma : generateCore c7Config sqrtD tanhQ rF rL rZ
        = generateData c7Config sqrtD reluQ rF rL rZ := by
      simp [generateCore, getKey, c7Config, assocGet]
    rw [hcore, hsigma,
      @generateData_eq c7Config 4 8 16 (mkRat 1 2) 0 (Value.str "cpu") sqrtD reluQ rF rL rZ
        (by decide) (by decide) (by decide) (by decide) (by decide) (by decide)]
    obtain ⟨hlen, hrows⟩ :=
      generated_data_shape (D := 4) 8 16 (by decide) sqrtD reluQ 0 rF rL rZ
    exact ⟨_, rfl, hlen, hrows, relu_plus_zero_noise_nonneg _ _⟩

theorem c7_shape_and_relu_nonneg_witness :
    ∃ data, (generate_dataset (HiddenManifold.init "") (some c7Config) false 2 (fun x => x)
        (fun _ _ => 1) (fun _ _ => true) (fun _ _ => 0)).2 = .ok data ∧
      data.length = 16 ∧ ∀ row ∈ data, row.length = 8 :=
  (c7_shape_and_relu_nonneg.1 (HiddenManifold.init "") c7Config false 2 (fun x => x)
    (fun _ _ => 1) (fun _ _ => true) (fun _ _ => 0) 4 8 16 (mkRat 1 2) 0 (Value.str "cpu")
    (by decide) (Or.inl (by decide)) (by decide) (by decide) (by decide) (by decide)
    (by decide) (by decide) (by decide))

/-! ### Persistence: inversion of a successful save -/

theorem save_dataset_ok_inv {α : Type} {hm hm2 : HiddenManifold} {fs fs2 : Fs α} {d : α}
    {id : String} {eo lw : Bool}
    (h : save_dataset hm fs d id eo lw = (hm2, fs2, none)) :
    ∃ cfg, get_config hm = some cfg ∧
      assocContains (saveMetaPre cfg id
        (joinPath (joinPath hm.save_dir (get_dirname id)) "dataset.pt")
        (joinPath hm.save_dir (get_dirname id))) "device" = true ∧
      hm2 = { hm with config := some (assocErase (saveMetaPre cfg id
        (joinPath (joinPath hm.save_dir (get_dirname id)) "dataset.pt")
        (joinPath hm.save_dir (get_dirname id))) "device") } ∧
      fs2 = setFile (setFile
        { fs with dirs := if joinPath hm.save_dir (get_dirname id) ∈ fs.dirs then fs.dirs
            else joinPath hm.save_dir (get_dirname id) :: fs.dirs }
        (joinPath (joinPath hm.save_dir (get_dirname id)) "dataset.pt") (FileEntry.tensor d))
        (joinPath (joinPath hm.save_dir (get_dirname id)) "metadata.json")
        (FileEntry.meta (assocErase (saveMetaPre cfg id
          (joinPath (joinPath hm.save_dir (get_dirname id)) "dataset.pt")
          (joinPath hm.save_dir (get_dirname id))) "device")) := by
  simp only [save_dataset] at h
  split at h
  · simp at h
  · split at h
    · simp at h
    · rename_i cfg heq
      split at h
      · rename_i hdev
        injection h with ha hrest
        injection hrest with hb hc
        exact ⟨cfg, heq, hdev, ha.symm, hb.symm⟩
      · simp at h

/-- C6: save_dataset with exist_ok=False on a pre-existing target
directory fails with a FileExistsError before performing any write: the
instance and the filesystem come back unchanged, so no file inside the
pre-existing directory is created or modified. -/
theorem c6_existing_dir_no_write {α : Type} (hm : HiddenManifold) (fs : Fs α) (d : α)
    (id : String) (lw : Bool)
    (hdir : joinPath hm.save_dir (get_dirname id) ∈ fs.dirs) :
    save_dataset hm fs d id false lw = (hm, fs, some Err.fileExists) := by
  simp only [save_dataset]
  rw [if_pos ⟨hdir, trivial⟩]

theorem c6_existing_dir_no_write_witness :
    joinPath (HiddenManifold.init "data").save_dir (get_dirname "a") ∈
      (Fs.mk ["data/rf_a"] ([] : List (String × FileEntry ℚ))).dirs ∧
    save_dataset (HiddenManifold.init "data")
        (Fs.mk ["data/rf_a"] ([] : List (String × FileEntry ℚ))) (7 : ℚ) "a" false false =
      (HiddenManifold.init "data", Fs.mk ["data/rf_a"] [], some Err.fileExists) :=
  ⟨by decide,
   c6_existing_dir_no_write (HiddenManifold.init "data") (Fs.mk ["data/rf_a"] []) 7 "a"
     false (by decide)⟩

/-- C10: save_dataset called before any generate_dataset (the stored
config is still None) raises a TypeError, but only after creating the
target directory and writing the dataset tensor file inside it: the
resulting filesystem contains dataset.pt while the metadata.json path
is left exactly as it was (hence absent when absent before). -/
theorem c10_save_before_generate {α : Type} (hm : HiddenManifold) (fs : Fs α) (d : α)
    (id : String) (eo lw : Bool)
    (hcfg : get_config hm = none)
    (hfresh : joinPath hm.save_dir (get_dirname id) ∉ fs.dirs ∨ eo = true) :
    ∃ fs2, save_dataset hm fs d id eo lw = (hm, fs2, some Err.typeError) ∧
      joinPath hm.save_dir (get_dirname id) ∈ fs2.dirs ∧
      getFile fs2 (joinPath (joinPath hm.save_dir (get_dirname id)) "dataset.pt") =
        some (FileEntry.tensor d) ∧
      getFile fs2 (joinPath (joinPath hm.save_dir (get_dirname id)) "metadata.json") =
        getFile fs (joinPath (joinPath hm.save_dir (get_dirname id)) "metadata.json") := by
  have hcond : ¬ (joinPath hm.save_dir (get_dirname id) ∈ fs.dirs ∧ eo = false) := by
    rcases hfresh with h | h
    · exact fun hc => h hc.1
    · intro hc
      rw [h] at hc
      exact Bool.true_eq_false.mp hc.2
  refine ⟨setFile
      { fs with dirs := if joinPath hm.save_dir (get_dirname id) ∈ fs.dirs then fs.dirs
          else joinPath hm.save_dir (get_dirname id) :: fs.dirs }
      (joinPath (joinPath hm.save_dir (get_dirname id)) "dataset.pt")
      (FileEntry.tensor d), ?_, ?_, ?_, ?_⟩
  · simp only [save_dataset, hcfg]
    rw [if_neg hcond]
  · by_cases hmem : joinPath hm.save_dir (get_dirname id) ∈ fs.dirs <;>
      simp [setFile, hmem]
  · simp [getFile, setFile, assocGet_set_self]
  · have hne : joinPath (joinPath hm.save_dir (get_dirname id)) "metadata.json" ≠
        joinPath (joinPath hm.save_dir (get_dirname id)) "dataset.pt" :=
      joinPath_ne_of_length_ne _ (by decide)
    simp [getFile, setFile, assocGet_set_ne _ _ _ hne]

theorem c10_save_before_generate_witness :
    get_config (HiddenManifold.init "") = none ∧
    (joinPath (HiddenManifold.init "").save_dir (get_dirname "t") ∉
      (Fs.mk [] ([] : List (String × FileEntry ℚ))).dirs ∨ false = true) ∧
    ∃ fs2, save_dataset (HiddenManifold.init "") (Fs.mk [] ([] : List (String × FileEntry ℚ)))
        (3 : ℚ) "t" false false = (HiddenManifold.init "", fs2, some Err.typeError) ∧
      joinPath (HiddenManifold.init "").save_dir (get_dirname "t") ∈ fs2.dirs ∧
      getFile fs2 (joinPath (joinPath (HiddenManifold.init "").save_dir (get_dirname "t"))
        "dataset.pt") = some (FileEntry.tensor 3) ∧
      getFile fs2 (joinPath (joinPath (HiddenManifold.init "").save_dir (get_dirname "t"))
        "metadata.json") = getFile (Fs.mk [] ([] : List (String × FileEntry ℚ)))
        (joinPath (joinPath (HiddenManifold.init "").save_dir (get_dirname "t"))
          "metadata.json") :=
  ⟨rfl, Or.inl (by decide),
   c10_save_before_generate (HiddenManifold.init "") (Fs.mk [] []) 3 "t" false false rfl
     (Or.inl (by decide))⟩

/-- C1: after a successful generate_dataset with config cfg followed by
a successful save_dataset of tensor d under id, load_dataset id returns
exactly d together with the metadata written at save time: cfg (the
config used for generation) minus the "device" field, plus the injected
id, dataset file path and dataset directory path. -/
theorem c1_save_load_roundtrip {α : Type} (hm0 hm1 hm2 : HiddenManifold) (cfg : Dict)
    (cuda : Bool) (sqrtD : ℚ) (tanhQ : ℚ → ℚ) (rF : Nat → Nat → ℚ) (rL : Nat → Nat → Bool)
    (rZ : Nat → Nat → ℚ) (d0 : Mat) (fs fs2 : Fs α) (d : α) (id : String) (eo lw : Bool)
    (hgen : generate_dataset hm0 (some cfg) cuda sqrtD tanhQ rF rL rZ = (hm1, .ok d0))
    (hsave : save_dataset hm1 fs d id eo lw = (hm2, fs2, none)) :
    load_dataset hm2 fs2 id =
      .ok (d, assocErase (saveMetaPre cfg id
        (joinPath (joinPath hm0.save_dir (get_dirname id)) "dataset.pt")
        (joinPath hm0.save_dir (get_dirname id))) "device") := by
  have hhm1 : ({ hm0 with config := some cfg } : HiddenManifold) = hm1 :=
    congrArg Prod.fst hgen
  subst hhm1
  obtain ⟨cfg1, hcfg1, _, hhm2, hfs2⟩ := save_dataset_ok_inv hsave
  have hcc : cfg = cfg1 := Option.some.inj hcfg1
  subst hcc
  subst hhm2
  subst hfs2
  have hne1 : joinPath (joinPath hm0.save_dir (get_dirname id)) "dataset.pt" ≠
      joinPath (joinPath hm0.save_dir (get_dirname id)) "metadata.json" :=
    joinPath_ne_of_length_ne _ (by decide)
  have hM_path : assocGet (assocErase (saveMetaPre cfg id
      (joinPath (joinPath hm0.save_dir (get_dirname id)) "dataset.pt")
      (joinPath hm0.save_dir (get_dirname id))) "device") "dataset_path" =
      some (Value.str (joinPath (joinPath hm0.save_dir (get_dirname id)) "dataset.pt")) := by
    rw [assocGet_erase_ne _ _ (by decide)]
    unfold saveMetaPre
    rw [assocGet_set_ne _ _ _ (by decide), assocGet_set_self]
  simp only [load_dataset, getFile, setFile, assocGet_set_self]
  simp only [hM_path]
  rw [assocGet_set_ne _ _ _ hne1, assocGet_set_self]

theorem c1_save_load_roundtrip_witness :
    generate_dataset (HiddenManifold.init "")
        (some [("feature_distribution", Value.str "gaussian"),
               ("nonlinearity", Value.str "relu"),
               ("D", Value.nat 1), ("N", Value.nat 1), ("P", Value.nat 1),
               ("p", Value.rat (mkRat 1 2)), ("noise", Value.rat 0),
               ("device", Value.str "cpu")])
        false 1 (fun x => x) (fun _ _ => 0) (fun _ _ => false) (fun _ _ => 0) =
      (⟨"", some [("feature_distribution", Value.str "gaussian"),
               ("nonlinearity", Value.str "relu"),
               ("D", Value.nat 1), ("N", Value.nat 1), ("P", Value.nat 1),
               ("p", Value.rat (mkRat 1 2)), ("noise", Value.rat 0),
               ("device", Value.str "cpu")]⟩,
       .ok (matAdd (matMap reluQ (matDiv (matmul
              (mkMat 1 1 (fun i j => if (fun _ _ : Nat => false) i j then (1 : ℚ) else 0))
              (mkMat 1 1 (fun _ _ : Nat => (0 : ℚ)))) 1))
            (matScale 0 (mkMat 1 1 (fun _ _ : Nat => (0 : ℚ)))))) ∧
    save_dataset (⟨"", some [("feature_distribution", Value.str "gaussian"),
               ("nonlinearity", Value.str "relu"),
               ("D", Value.nat 1), ("N", Value.nat 1), ("P", Value.nat 1),
               ("p", Value.rat (mkRat 1 2)), ("noise", Value.rat 0),
               ("device", Value.str "cpu")]⟩ : HiddenManifold)
        (Fs.mk [] ([] : List (String × FileEntry ℚ))) (5 : ℚ) "t" false false =
      (⟨"", some (assocErase (saveMetaPre [("feature_distribution", Value.str "gaussian"),
               ("nonlinearity", Value.str "relu"),
               ("D", Value.nat 1), ("N", Value.nat 1), ("P", Value.nat 1),
               ("p", Value.rat (mkRat 1 2)), ("noise", Value.rat 0),
               ("device", Value.str "cpu")] "t" "rf_t/dataset.pt" "rf_t") "device")⟩,
       setFile (setFile (Fs.mk ["rf_t"] ([] : List (String × FileEntry ℚ)))
         "rf_t/dataset.pt" (FileEntry.tensor 5))
         "rf_t/metadata.json"
         (FileEntry.meta (assocErase (saveMetaPre [("feature_distribution", Value.str "gaussian"),
               ("nonlinearity", Value.str "relu"),
               ("D", Value.nat 1), ("N", Value.nat 1), ("P", Value.nat 1),
               ("p", Value.rat (mkRat 1 2)), ("noise", Value.rat 0),
               ("device", Value.str "cpu")] "t" "rf_t/dataset.pt" "rf_t") "device")),
       none) ∧
    load_dataset (⟨"", some (assocErase (saveMetaPre [("feature_distribution", Value.str "gaussian"),
               ("nonlinearity", Value.str "relu"),
               ("D", Value.nat 1), ("N", Value.nat 1), ("P", Value.nat 1),
               ("p", Value.rat (mkRat 1 2)), ("noise", Value.rat 0),
               ("device", Value.str "cpu")] "t" "rf_t/dataset.pt" "rf_t") "device")⟩ : HiddenManifold)
      (setFile (setFile (Fs.mk ["rf_t"] ([] : List (String × FileEntry ℚ)))
         "rf_t/dataset.pt" (FileEntry.tensor 5))
         "rf_t/metadata.json"
         (FileEntry.meta (assocErase (saveMetaPre [("feature_distribution", Value.str "gaussian"),
               ("nonlinearity", Value.str "relu"),
               ("D", Value.nat 1), ("N", Value.nat 1), ("P", Value.nat 1),
               ("p", Value.rat (mkRat 1 2)), ("noise", Value.rat 0),
               ("device", Value.str "cpu")] "t" "rf_t/dataset.pt" "rf_t") "device"))) "t" =
      .ok (5, assocErase (saveMetaPre [("feature_distribution", Value.str "gaussian"),
               ("nonlinearity", Value.str "relu"),
               ("D", Value.nat 1), ("N", Value.nat 1), ("P", Value.nat 1),
               ("p", Value.rat (mkRat 1 2)), ("noise", Value.rat 0),
               ("device", Value.str "cpu")]
        "t" (joinPath (joinPath "" (get_dirname "t")) "dataset.pt")
        (joinPath "" (get_dirname "t"))) "device") :=
  ⟨rfl, rfl,
   c1_save_load_roundtrip (HiddenManifold.init "") _ _ _ false 1 (fun x => x)
     (fun _ _ => 0) (fun _ _ => false) (fun _ _ => 0) _ (Fs.mk [] []) _ 5 "t" false false
     rfl rfl⟩

/-- C8: after a successful generate_dataset and one successful
save_dataset, a second save_dataset on the same instance (with a fresh
target directory or exist_ok=True) fails with KeyError "device" — the
first save deleted "device" from the dict aliased by self.config — and
it does so only after the second call has already created its directory
and written its dataset file (its only file write). -/
theorem c8_second_save_keyerror {α : Type} (hm0 hm1 hm2 : HiddenManifold) (cfg : Dict)
    (cuda : Bool) (sqrtD : ℚ) (tanhQ : ℚ → ℚ) (rF : Nat → Nat → ℚ) (rL : Nat → Nat → Bool)
    (rZ : Nat → Nat → ℚ) (d0 : Mat) (fs fs2 : Fs α) (d d2 : α) (id id2 : String)
    (eo lw eo2 lw2 : Bool)
    (_hgen : generate_dataset hm0 (some cfg) cuda sqrtD tanhQ rF rL rZ = (hm1, .ok d0))
    (hsave : save_dataset hm1 fs d id eo lw = (hm2, fs2, none))
    (hfresh : joinPath hm2.save_dir (get_dirname id2) ∉ fs2.dirs ∨ eo2 = true) :
    ∃ hm3 fs3, save_dataset hm2 fs2 d2 id2 eo2 lw2 = (hm3, fs3, some (Err.keyError "device")) ∧
      joinPath hm2.save_dir (get_dirname id2) ∈ fs3.dirs ∧
      fs3.files = assocSet fs2.files
        (joinPath (joinPath hm2.save_dir (get_dirname id2)) "dataset.pt")
        (FileEntry.tensor d2) := by
  obtain ⟨cfg1, hcfg1, _, hhm2, hfs2⟩ := save_dataset_ok_inv hsave
  have hcond : ¬ (joinPath hm2.save_dir (get_dirname id2) ∈ fs2.dirs ∧ eo2 = false) := by
    rcases hfresh with h | h
    · exact fun hc => h hc.1
    · intro hc
      rw [h] at hc
      exact Bool.true_eq_false.mp hc.2
  have hgc2 : get_config hm2 = some (assocErase (saveMetaPre cfg1 id
      (joinPath (joinPath hm1.save_dir (get_dirname id)) "dataset.pt")
      (joinPath hm1.save_dir (get_dirname id))) "device") := by
    rw [hhm2]
    rfl
  have hnodev : assocContains (saveMetaPre (assocErase (saveMetaPre cfg1 id
      (joinPath (joinPath hm1.save_dir (get_dirname id)) "dataset.pt")
      (joinPath hm1.save_dir (get_dirname id))) "device") id2
      (joinPath (joinPath hm2.save_dir (get_dirname id2)) "dataset.pt")
      (joinPath hm2.save_dir (get_dirname id2))) "device" = false := by
    unfold saveMetaPre
    simp only [assocContains]
    rw [assocGet_set_ne _ _ _ (by decide), assocGet_set_ne _ _ _ (by decide),
      assocGet_set_ne _ _ _ (by decide), assocGet_erase_self]
    rfl
  refine ⟨{ hm2 with config := some (saveMetaPre (assocErase (saveMetaPre cfg1 id
        (joinPath (joinPath hm1.save_dir (get_dirname id)) "dataset.pt")
        (joinPath hm1.save_dir (get_dirname id))) "device") id2
        (joinPath (joinPath hm2.save_dir (get_dirname id2)) "dataset.pt")
        (joinPath hm2.save_dir (get_dirname id2))) },
    setFile { fs2 with dirs := (if joinPath hm2.save_dir (get_dirname id2) ∈ fs2.dirs
        then fs2.dirs else joinPath hm2.save_dir (get_dirname id2) :: fs2.dirs) }
      (joinPath (joinPath hm2.save_dir (get_dirname id2)) "dataset.pt") (FileEntry.tensor d2),
    ?_, ?_, ?_⟩
  · simp only [save_dataset, hgc2]
    rw [if_neg hcond]
    simp only [hnodev]
    rfl
  · by_cases hmem : joinPath hm2.save_dir (get_dirname id2) ∈ fs2.dirs <;>
      simp [setFile, hmem]
  · rfl

theorem c8_second_save_keyerror_witness :
    (∃ hm3 fs3,
      save_dataset (⟨"", some (assocErase (saveMetaPre
            [("feature_distribution", Value.str "gaussian"),
             ("nonlinearity", Value.str "relu"),
             ("D", Value.nat 1), ("N", Value.nat 1), ("P", Value.nat 1),
             ("p", Value.rat (mkRat 1 2)), ("noise", Value.rat 0),
             ("device", Value.str "cpu")] "t" "rf_t/dataset.pt" "rf_t") "device")⟩ : HiddenManifold)
        (setFile (setFile (Fs.mk ["rf_t"] ([] : List (String × FileEntry ℚ)))
          "rf_t/dataset.pt" (FileEntry.tensor 5))
          "rf_t/metadata.json"
          (FileEntry.meta (assocErase (saveMetaPre
            [("feature_distribution", Value.str "gaussian"),
             ("nonlinearity", Value.str "relu"),
             ("D", Value.nat 1), ("N", Value.nat 1), ("P", Value.nat 1),
             ("p", Value.rat (mkRat 1 2)), ("noise", Value.rat 0),
             ("device", Value.str "cpu")] "t" "rf_t/dataset.pt" "rf_t") "device")))
        (6 : ℚ) "u" false false = (hm3, fs3, some (Err.keyError "device")) ∧
      joinPath "" (get_dirname "u") ∈ fs3.dirs ∧
      fs3.files = assocSet (setFile (setFile (Fs.mk ["rf_t"] ([] : List (String × FileEntry ℚ)))
          "rf_t/dataset.pt" (FileEntry.tensor 5))
          "rf_t/metadata.json"
          (FileEntry.meta (assocErase (saveMetaPre
            [("feature_distribution", Value.str "gaussian"),
             ("nonlinearity", Value.str "relu"),
             ("D", Value.nat 1), ("N", Value.nat 1), ("P", Value.nat 1),
             ("p", Value.rat (mkRat 1 2)), ("noise", Value.rat 0),
             ("device", Value.str "cpu")] "t" "rf_t/dataset.pt" "rf_t") "device"))).files
        (joinPath (joinPath "" (get_dirname "u")) "dataset.pt") (FileEntry.tensor 6)) :=
  c8_second_save_keyerror (HiddenManifold.init "") _ _
    [("feature_distribution", Value.str "gaussian"),
     ("nonlinearity", Value.str "relu"),
     ("D", Value.nat 1), ("N", Value.nat 1), ("P", Value.nat 1),
     ("p", Value.rat (mkRat 1 2)), ("noise", Value.rat 0),
     ("device", Value.str "cpu")]
    false 1 (fun x => x) (fun _ _ => 0) (fun _ _ => false) (fun _ _ => 0)
    (matAdd (matMap reluQ (matDiv (matmul
        (mkMat 1 1 (fun i j => if (fun _ _ : Nat => false) i j then (1 : ℚ) else 0))
        (mkMat 1 1 (fun _ _ : Nat => (0 : ℚ)))) 1))
      (matScale 0 (mkMat 1 1 (fun _ _ : Nat => (0 : ℚ)))))
    (Fs.mk [] []) _ 5 6 "t" "u" false false false false rfl rfl (Or.inl (by decide))

/-- A small valid generation config (gaussian features, relu, D=N=P=1),
used to exercise the generate/save lifecycle on concrete inputs. -/
def c2Config : Dict :=
  [("feature_distribution", Value.str "gaussian"),
   ("nonlinearity", Value.str "relu"),
   ("D", Value.nat 1), ("N", Value.nat 1), ("P", Value.nat 1),
   ("p", Value.rat (mkRat 1 2)), ("noise", Value.rat 0),
   ("device", Value.str "cpu")]

/-- C2 (refuted — the code contradicts get_config's documented contract):
the config retained by the generator is not immutable after generation.
A single save_dataset mutates the very dict returned by get_config: it
deletes "device" and adds "id", "dataset_path" and "dataset_dir", so
after generate_dataset followed by save_dataset, get_config no longer
returns the config passed to the last generate_dataset call. -/
theorem c2_config_mutated_by_save :
    ∃ m, get_config (save_dataset
        (generate_dataset (HiddenManifold.init "") (some c2Config) false 1 (fun x => x)
          (fun _ _ => 0) (fun _ _ => false) (fun _ _ => 0)).1
        (Fs.mk [] ([] : List (String × FileEntry ℚ))) (5 : ℚ) "t" false false).1 = some m ∧
      m ≠ c2Config ∧
      assocGet m "device" = none ∧
      assocGet m "id" = some (Value.str "t") ∧
      assocGet c2Config "device" = some (Value.str "cpu") :=
  ⟨assocErase (saveMetaPre c2Config "t" "rf_t/dataset.pt" "rf_t") "device",
   rfl, by decide, by decide, by decide, by decide⟩

/-- `torch.Tensor.flatten(start_dim=1)` at the level of shapes: dim 0 is
kept, all later dims are collapsed into one. -/
def flatten_start1 (dims : List Nat) : List Nat :=
  dims.headD 0 :: [(dims.drop 1).prod]

/-- C3 (refuted for load_mnist_as_dataset): load_mnist and load_cifar do
rescale raw uint8 pixels by the affine map 0 ↦ -1, 255 ↦ 1 and flatten
each sample to one dimension; but load_mnist_as_dataset applies the
rescaling lambda after ToTensor has already scaled pixels into [0, 1],
so a pixel of intensity 255 comes out as -253/255 rather than 1, and its
per-sample flatten(start_dim=1) on a [1, 28, 28] tensor leaves shape
[1, 784] rather than a single dimension. -/
theorem c3_loader_rescale_divergence :
    raw_loader_pixel 0 = -1 ∧
    raw_loader_pixel 255 = 1 ∧
    mnist_as_dataset_pixel 0 = -1 ∧
    mnist_as_dataset_pixel 255 = -(253/255 : ℚ) ∧
    mnist_as_dataset_pixel 255 ≠ 1 ∧
    flatten_start1 [1, 28, 28] = [1, 784] ∧
    flatten_start1 [60000, 28, 28] = [60000, 784] := by
  refine ⟨?_, ?_, ?_, ?_, ?_, by decide, by decide⟩ <;>
    norm_num [raw_loader_pixel, mnist_as_dataset_pixel, rescalePixel, toTensorPixel]

end Jepa
